import Mathlib

/-!
Shallow embedding of the severity-classification rule engine of
`analyze_logs.py` (class `LogAnalyzer`) and `classify_and_organize.py`
(class `LogClassifier`).  The two Python classes duplicate the same
pattern catalog and the same `classify_severity` cascade verbatim, so a
single Lean definition `classify_severity` models both.

Python regexes are embedded exactly for the pattern shapes occurring in
the source: every catalog pattern is either a literal, or two or three
literals separated by `.*`.  `re.search(p, t, re.IGNORECASE | re.MULTILINE)`
is modelled with ASCII case folding; `.` does not match a newline
(Python semantics without `re.DOTALL`; `re.MULTILINE` only changes the
meaning of the anchors, which no pattern uses).  `re.findall` counting is
modelled with the same leftmost, greedy, non-overlapping semantics.
-/

namespace TestingRowData

/-- ASCII-case-folded code of a character, modelling `re.IGNORECASE`
over the ASCII patterns used by the catalogs. -/
def lowNat (c : Char) : Nat :=
  if 65 ≤ c.toNat ∧ c.toNat ≤ 90 then c.toNat + 32 else c.toNat

/-- Case-insensitive character comparison. -/
def eqCI (a b : Char) : Bool := lowNat a = lowNat b

/-- Case-insensitively strip `p` from the front of `t`, returning the
remainder on success. -/
def stripCI : List Char → List Char → Option (List Char)
  | [], t => some t
  | _ :: _, [] => none
  | c :: p, d :: t => if eqCI c d then stripCI p t else none

/-- Case-sensitively strip `p` from the front of `t`, returning the
remainder on success. -/
def stripCS : List Char → List Char → Option (List Char)
  | [], t => some t
  | _ :: _, [] => none
  | c :: p, d :: t => if c = d then stripCS p t else none

/-- Case-insensitive substring search: `re.search` of a plain literal
under `re.IGNORECASE`. -/
def substrCI (p : List Char) : List Char → Bool
  | [] => (stripCI p []).isSome
  | c :: t => (stripCI p (c :: t)).isSome || substrCI p t

/-- Case-sensitive substring search: the Python `in` operator on `str`. -/
def substrCS (p : List Char) : List Char → Bool
  | [] => (stripCS p []).isSome
  | c :: t => (stripCS p (c :: t)).isSome || substrCS p t

/-- Search for literal `p` (case-insensitively) starting inside the
current line: the gap consumed before the match may not contain a
newline, since `.*` cannot cross one. -/
def lineSearch (p : List Char) : List Char → Bool
  | [] => (stripCI p []).isSome
  | c :: t => (stripCI p (c :: t)).isSome || ((c != '\n') && lineSearch p t)

/-- Search for `p`, then `.*`, then `q`, with both gaps inside the
current line. -/
def lineSearch2 (p q : List Char) : List Char → Bool
  | [] =>
      (match stripCI p [] with
       | some r => lineSearch q r
       | none => false)
  | c :: t =>
      (match stripCI p (c :: t) with
       | some r => lineSearch q r
       | none => false) || ((c != '\n') && lineSearch2 p q t)

/-- `re.search` of `a.*b` under `re.IGNORECASE`: `a` anywhere, `b` later
on the same line. -/
def search2 (a b : List Char) : List Char → Bool
  | [] =>
      (match stripCI a [] with
       | some r => lineSearch b r
       | none => false)
  | c :: t =>
      (match stripCI a (c :: t) with
       | some r => lineSearch b r
       | none => false) || search2 a b t

/-- `re.search` of `a.*b.*q` under `re.IGNORECASE`. -/
def search3 (a b q : List Char) : List Char → Bool
  | [] =>
      (match stripCI a [] with
       | some r => lineSearch2 b q r
       | none => false)
  | c :: t =>
      (match stripCI a (c :: t) with
       | some r => lineSearch2 b q r
       | none => false) || search3 a b q t

/-- The shapes of regexes appearing in the four pattern catalogs:
a literal, or two or three literals separated by `.*`. -/
inductive Pat where
  | one : String → Pat
  | two : String → String → Pat
  | three : String → String → String → Pat
deriving DecidableEq

/-- A catalog entry: the raw regex source text (recorded as evidence by
`check_patterns`) together with its parsed shape. -/
structure PatEntry where
  src : String
  pat : Pat
deriving DecidableEq

/-- `re.search(pattern, text, re.IGNORECASE | re.MULTILINE)` as a Bool. -/
def reSearch (t : List Char) : Pat → Bool
  | .one a => substrCI a.data t
  | .two a b => search2 a.data b.data t
  | .three a b c => search3 a.data b.data c.data t

/-- Severity 1 patterns (`self.crash_patterns`). -/
def crash_patterns : List PatEntry :=
  [⟨"Assertion.*failed", .two "Assertion" "failed"⟩,
   ⟨"Assert_Exit_", .one "Assert_Exit_"⟩,
   ⟨"Exiting execution", .one "Exiting execution"⟩,
   ⟨"exit_fun", .one "exit_fun"⟩,
   ⟨"Segmentation fault", .one "Segmentation fault"⟩,
   ⟨"config_execcheck.*failed", .two "config_execcheck" "failed"⟩,
   ⟨"fatal", .one "fatal"⟩,
   ⟨"abort\\(\\)", .one "abort()"⟩,
   ⟨"core dump", .one "core dump"⟩]

/-- Severity 2 patterns (`self.abnormal_patterns`). -/
def abnormal_patterns : List PatEntry :=
  [⟨"ERROR", .one "ERROR"⟩,
   ⟨"CRITICAL", .one "CRITICAL"⟩,
   ⟨"failed.*initialization", .two "failed" "initialization"⟩,
   ⟨"failed.*init", .two "failed" "init"⟩,
   ⟨"Connection.*failed", .two "Connection" "failed"⟩,
   ⟨"timeout.*exceeded", .two "timeout" "exceeded"⟩,
   ⟨"retry.*limit", .two "retry" "limit"⟩]

/-- Severity 3 patterns (`self.ue_failure_patterns`). -/
def ue_failure_patterns : List PatEntry :=
  [⟨"RA procedure.*failed", .two "RA procedure" "failed"⟩,
   ⟨"RRC.*reject", .two "RRC" "reject"⟩,
   ⟨"Registration.*reject", .two "Registration" "reject"⟩,
   ⟨"PDU.*session.*failed", .three "PDU" "session" "failed"⟩,
   ⟨"attach.*failed", .two "attach" "failed"⟩,
   ⟨"connection.*reject", .two "connection" "reject"⟩,
   ⟨"UE.*connection.*failed", .three "UE" "connection" "failed"⟩]

/-- Success patterns (`self.success_patterns`). -/
def success_patterns : List PatEntry :=
  [⟨"PDU Session Establishment Accept", .one "PDU Session Establishment Accept"⟩,
   ⟨"RA procedure succeeded", .one "RA procedure succeeded"⟩,
   ⟨"RRC_CONNECTED reached", .one "RRC_CONNECTED reached"⟩,
   ⟨"CBRA procedure succeeded", .one "CBRA procedure succeeded"⟩,
   ⟨"successfully configured.*IPv4", .two "successfully configured" "IPv4"⟩,
   ⟨"Received PDU Session Establishment Accept", .one "Received PDU Session Establishment Accept"⟩]

/-- `check_patterns(text, patterns)`: whether any pattern matched, and
the source texts of the matching patterns in catalog order. -/
def check_patterns (text : String) (ps : List PatEntry) : Bool × List String :=
  let ms := (ps.filter (fun pe => reSearch text.data pe.pat)).map PatEntry.src
  (decide (0 < ms.length), ms)

/-- Maximal run of characters satisfying `f`, and the rest. -/
def takeRun (f : Char → Bool) : List Char → List Char × List Char
  | [] => ([], [])
  | c :: t =>
      if f c then
        match takeRun f t with
        | (r, rest) => (c :: r, rest)
      else ([], c :: t)

/-- Python `\s` restricted to ASCII whitespace. -/
def isWSpace (c : Char) : Bool :=
  c == ' ' || c == '\t' || c == '\n' || c == '\r' || c == '\x0b' || c == '\x0c'

/-- Python `[\d\.]` restricted to ASCII digits. -/
def isDigitDot (c : Char) : Bool := c.isDigit || c == '.'

/-- Try to match `IPv4\s+[\d\.]+` at the head of `t`, returning the
whole matched text (`group(0)`). -/
def ipv4At (t : List Char) : Option (List Char) :=
  match stripCS ("IPv4".data) t with
  | none => none
  | some r =>
      match takeRun isWSpace r with
      | (ws, r1) =>
          if ws.isEmpty then none
          else
            match takeRun isDigitDot r1 with
            | (ds, _) =>
                if ds.isEmpty then none else some ("IPv4".data ++ ws ++ ds)

/-- `re.search(r'IPv4\s+[\d\.]+', all_logs)` (no flags, so it is
case-sensitive): leftmost match, greedy runs. -/
def ipv4Search : List Char → Option (List Char)
  | [] => ipv4At []
  | c :: t =>
      match ipv4At (c :: t) with
      | some m => some m
      | none => ipv4Search t

/-- Try to match `Assertion \(([^)]+)\) failed` at the head of `t`,
returning the capture group.  `[^)]+` is greedy and the following
character must be `)`, so the group is exactly the maximal run of
non-`)` characters. -/
def assertAt (t : List Char) : Option (List Char) :=
  match stripCS ("Assertion (".data) t with
  | none => none
  | some r =>
      match takeRun (fun c => c != ')') r with
      | (e, rest) =>
          if e.isEmpty then none
          else
            match stripCS (") failed".data) rest with
            | some _ => some e
            | none => none

/-- `re.search(r'Assertion \(([^)]+)\) failed', all_logs)`: leftmost
match, returning `group(1)`. -/
def assertSearch : List Char → Option (List Char)
  | [] => assertAt []
  | c :: t =>
      match assertAt (c :: t) with
      | some m => some m
      | none => assertSearch t

/-- Remainder of `t` after the last occurrence of `p` that starts before
the next newline (the greedy `.*` of `connect\(\).*failed` cannot cross
a line break). -/
def afterLastInLine (p : List Char) : List Char → Option (List Char)
  | [] => stripCS p []
  | c :: t =>
      match (if c = '\n' then none else afterLastInLine p t) with
      | some r => some r
      | none => stripCS p (c :: t)

/-- One pass of `re.findall(r'connect\(\).*failed', ue_log)` counting,
indexed by fuel for structural recursion; fuel `t.length` suffices since
every recursive call consumes at least one character. -/
def countConnectAux : Nat → List Char → Nat
  | 0, _ => 0
  | fuel + 1, t =>
      match t with
      | [] => 0
      | c :: t' =>
          match stripCS ("connect()".data) (c :: t') with
          | some r =>
              match afterLastInLine ("failed".data) r with
              | some r' => countConnectAux fuel r' + 1
              | none => countConnectAux fuel t'
          | none => countConnectAux fuel t'

/-- `len(re.findall(r'connect\(\).*failed', ue_log))`: the number of
non-overlapping, leftmost, greedy matches. -/
def countConnect (t : List Char) : Nat := countConnectAux t.length t

/-- The optional `original_json_data` metadata of a bundle; the source
reads every field with `.get` and a default, so each field is optional. -/
structure Metadata where
  filename : Option String
  affectedModule : Option String
  errorType : Option String
  impactDescription : Option String
deriving DecidableEq

/-- A parsed log bundle whose stream values are plain strings, as
consumed by `classify_severity` (`log_data`): the `logs` key is optional
(`if "logs" in log_data`), and the dict is modelled as an association
list in insertion order. -/
structure LogData where
  logs : Option (List (String × String))
  originalJsonData : Option Metadata
deriving DecidableEq

/-- The tuple returned by `classify_severity`:
`(severity_stage, root_cause_summary, evidence_keywords, confidence)`. -/
structure Verdict where
  severity : Int
  summary : String
  evidence : List String
  confidence : ℚ
deriving DecidableEq

/-- `all_logs`: the streams concatenated in dict order, each followed by
a newline; the empty string when the `logs` key is absent. -/
def combineLogs : Option (List (String × String)) → String
  | none => ""
  | some l => l.foldl (fun acc p => acc ++ p.2 ++ "\n") ""

/-- The search corpus of a bundle. -/
def allLogs (d : LogData) : String := combineLogs d.logs

/-- `log_data.get("original_json_data", {})`. -/
def mdOf (d : LogData) : Metadata :=
  d.originalJsonData.getD ⟨none, none, none, none⟩

/-- `metadata.get("filename", "unknown")`. -/
def filenameOf (d : LogData) : String := (mdOf d).filename.getD "unknown"

/-- `metadata.get("affected_module", "Unknown")`. -/
def affectedOf (d : LogData) : String := (mdOf d).affectedModule.getD "Unknown"

/-- `metadata.get("error_type", "")`. -/
def errorTypeOf (d : LogData) : String := (mdOf d).errorType.getD ""

/-- `metadata.get("impact_description", "")`. -/
def impactOf (d : LogData) : String := (mdOf d).impactDescription.getD ""

/-- `log_data.get("logs", {}).get("ue.stdout.log", "")`. -/
def ueLogOf (d : LogData) : String :=
  ((d.logs.getD []).lookup "ue.stdout.log").getD ""

/-- Evidence of the crash branch: the matched crash-pattern sources,
plus the extracted assertion expression when the corpus contains the
literal tokens `Assertion` and `failed` and the extraction regex
matches. -/
def crashEvidence (all : String) (ev : List String) : List String :=
  if substrCS ("Assertion".data) all.data && substrCS ("failed".data) all.data then
    match assertSearch all.data with
    | some e => ev ++ ["Assertion: " ++ String.mk e]
    | none => ev
  else ev

/-- The success-strength score: how many of the four binary sub-signals
are present (three case-sensitive substrings and the IPv4 regex). -/
def successCount (all : String) : Nat :=
  (if substrCS ("PDU Session Establishment Accept".data) all.data then 1 else 0)
  + (if substrCS ("RRC_CONNECTED reached".data) all.data then 1 else 0)
  + (if substrCS ("CBRA procedure succeeded".data) all.data then 1 else 0)
  + (if (ipv4Search all.data).isSome then 1 else 0)

/-- Evidence of the corroborated-success branch: the matched
success-pattern sources, plus the IPv4 match when present. -/
def successEvidence (all : String) (ev : List String) : List String :=
  match ipv4Search all.data with
  | some m => ev ++ ["IPv4配置成功: " ++ String.mk m]
  | none => ev

/-- Steps 6–8 of the cascade: metadata fallback, residual success,
uncertain terminal case. -/
def metadataFallback (filename errorType impact : String)
    (hasSuccess : Bool) (successEv : List String) : Verdict :=
  if errorType ≠ "" then
    ⟨2, "可能異常：配置錯誤 (" ++ errorType ++ ") 在 " ++ filename
        ++ "，但 log 中無明確崩潰或失敗訊息",
     ["Config error: " ++ errorType, "Impact: " ++ impact], 0.50⟩
  else if hasSuccess then
    ⟨0, "無錯誤：在 " ++ filename ++ " 中未發現明顯錯誤，有成功連線的跡象",
     successEv, 0.70⟩
  else
    ⟨0, "無法判斷：log 資訊不足以明確分類，檔案 " ++ filename,
     ["Insufficient log information"], 0.30⟩

/-- Step 5 of the cascade: the repeated-connection-attempt heuristic on
the stream stored under the key `ue.stdout.log`; falls through to
`tail` (steps 6–8) when it does not fire. -/
def connectHeuristic (ueLog : String) (hasSuccess : Bool) (tail : Verdict) : Verdict :=
  if substrCS ("connect() to".data) ueLog.data
      && substrCS ("failed, errno".data) ueLog.data then
    if !hasSuccess then
      if 10 < countConnect ueLog.data then
        ⟨3, "UE 連線失敗：UE 無法連接到 DU (重試 "
            ++ toString (countConnect ueLog.data) ++ " 次)",
         [toString (countConnect ueLog.data) ++ " connection attempts failed"],
         0.80⟩
      else tail
    else tail
  else tail

/-- `classify_severity(log_data)` — the decision cascade shared verbatim
by `LogAnalyzer` and `LogClassifier`. -/
def classify_severity (d : LogData) : Verdict :=
  if (check_patterns (allLogs d) crash_patterns).1 then
    ⟨1, "組件崩潰：在 " ++ filenameOf d
        ++ " 中偵測到 assertion 失敗或 exit，錯誤類型：" ++ errorTypeOf d,
     crashEvidence (allLogs d) (check_patterns (allLogs d) crash_patterns).2,
     0.95⟩
  else if (check_patterns (allLogs d) success_patterns).1
      && decide (2 ≤ successCount (allLogs d)) then
    ⟨0, "無錯誤：在 " ++ filenameOf d
        ++ " 中 UE 成功建立連線並獲取 IP，所有主要流程正常完成",
     successEvidence (allLogs d) (check_patterns (allLogs d) success_patterns).2,
     0.90⟩
  else if (check_patterns (allLogs d) ue_failure_patterns).1 then
    ⟨3, "UE 連線失敗：組件啟動正常但 UE 無法完成連線，在 " ++ affectedOf d
        ++ " 模組偵測到失敗",
     (check_patterns (allLogs d) ue_failure_patterns).2, 0.85⟩
  else if (check_patterns (allLogs d) abnormal_patterns).1 then
    ⟨2, "組件異常運行：在 " ++ filenameOf d ++ " 中 " ++ affectedOf d
        ++ " 模組出現錯誤但未崩潰，" ++ impactOf d,
     (check_patterns (allLogs d) abnormal_patterns).2, 0.70⟩
  else
    connectHeuristic (ueLogOf d) (check_patterns (allLogs d) success_patterns).1
      (metadataFallback (filenameOf d) (errorTypeOf d) (impactOf d)
        (check_patterns (allLogs d) success_patterns).1
        (check_patterns (allLogs d) success_patterns).2)

/-- A JSON stream value of the documented input shape: a string, or a
list of strings. -/
inductive StreamVal where
  | str : String → StreamVal
  | strs : List String → StreamVal
deriving DecidableEq

/-- Whether a stream value is a plain string. -/
def isStrVal : StreamVal → Bool
  | .str _ => true
  | .strs _ => false

/-- A parsed log bundle as it comes out of `json.load`, before
`classify_severity` touches it: stream values may be strings or lists. -/
structure LogDataPy where
  logs : Option (List (String × StreamVal))
  originalJsonData : Option Metadata
deriving DecidableEq

/-- `all_logs += log_content + "\n"` on one value: a list value raises
`TypeError` because Python cannot add a list and a string. -/
def toStrStream : StreamVal → Except String String
  | .str s => .ok s
  | .strs _ => .error "can only concatenate list (not \"str\") to list"

/-- Walk the `logs` dict in order, failing at the first list value —
exactly where the corpus-building loop of `classify_severity` raises. -/
def pyLogs : List (String × StreamVal) → Except String (List (String × String))
  | [] => .ok []
  | (k, v) :: rest =>
      match toStrStream v with
      | .error e => .error e
      | .ok s =>
          match pyLogs rest with
          | .error e => .error e
          | .ok r => .ok ((k, s) :: r)

/-- `classify_severity` on a freshly parsed bundle: Python raises
`TypeError` while concatenating the corpus if any stream value is a
list; otherwise the cascade runs on the string-valued bundle. -/
def classifySeverityPy (d : LogDataPy) : Except String Verdict :=
  match d.logs with
  | none => .ok (classify_severity ⟨none, d.originalJsonData⟩)
  | some l =>
      match pyLogs l with
      | .error e => .error e
      | .ok sl => .ok (classify_severity ⟨some sl, d.originalJsonData⟩)

/-- ASCII upper-casing of a character (Python `str.upper` on ASCII). -/
def upChar (c : Char) : Char :=
  if 97 ≤ c.toNat ∧ c.toNat ≤ 122 then Char.ofNat (c.toNat - 32) else c

/-- `extract_component_from_filename(filename)`. -/
def extract_component_from_filename (filename : String) : String :=
  let up := filename.data.map upChar
  if substrCS ("DU".data) up then "DU"
  else if substrCS ("CU".data) up then "CU"
  else if substrCS ("UE".data) up then "UE"
  else "Unknown"

/-- The record returned by `LogAnalyzer.analyze_file`. -/
structure FileResult where
  case_id : String
  severity_stage : Int
  root_cause_summary : String
  evidence_keywords : List String
  component : String
  confidence : ℚ
deriving DecidableEq

/-- `metadata.get("filename", "unknown")` on a freshly parsed bundle. -/
def filenameOfPy (d : LogDataPy) : String :=
  (d.originalJsonData.getD ⟨none, none, none, none⟩).filename.getD "unknown"

/-- `LogAnalyzer.analyze_file(filepath)`.  File access and JSON parsing
are external effects, so the per-file loading outcome is passed in as
`loaded`; the `try`/`except` of the source maps any failure — a
read/parse failure, or an exception escaping `classify_severity` — to
the `ProcessingError` record with severity sentinel `-1` and confidence
`0.0`.  `pathStr` models `str(filepath)`, and `parentName`/`fileName`
model `filepath.parent.name`/`filepath.name`. -/
def analyze_file (pathStr parentName fileName : String)
    (loaded : Except String LogDataPy) : FileResult :=
  match loaded with
  | .error e =>
      ⟨pathStr, -1, "Error processing file: " ++ e, [e], "Error", 0⟩
  | .ok d =>
      match classifySeverityPy d with
      | .error e =>
          ⟨pathStr, -1, "Error processing file: " ++ e, [e], "Error", 0⟩
      | .ok v =>
          ⟨parentName ++ "/" ++ fileName, v.severity, v.summary, v.evidence,
           extract_component_from_filename (filenameOfPy d), v.confidence⟩

/-- Characters that are equal are case-insensitively equal. -/
lemma eqCI_of_eq {a b : Char} (h : a = b) : eqCI a b = true := by
  subst h; simp [eqCI]

/-- A case-sensitive prefix strip is also a case-insensitive one. -/
lemma stripCI_of_stripCS {p : List Char} :
    ∀ {t r : List Char}, stripCS p t = some r → stripCI p t = some r := by
  induction p with
  | nil => intro t r h; simpa [stripCS, stripCI] using h
  | cons c p ih =>
      intro t r h
      cases t with
      | nil => simp [stripCS] at h
      | cons d t =>
          by_cases hcd : c = d
          · rw [stripCS, if_pos hcd] at h
            rw [stripCI, if_pos (eqCI_of_eq hcd)]
            exact ih h
          · rw [stripCS, if_neg hcd] at h
            exact absurd h (by simp)

/-- A case-sensitive substring is also a case-insensitive one. -/
lemma substrCI_of_substrCS {p : List Char} :
    ∀ {t : List Char}, substrCS p t = true → substrCI p t = true := by
  intro t
  induction t with
  | nil =>
      intro h
      simp only [substrCS, Option.isSome_iff_exists] at h
      obtain ⟨r, hr⟩ := h
      simp [substrCI, Option.isSome_iff_exists, stripCI_of_stripCS hr]
  | cons c t ih =>
      intro h
      simp only [substrCS, Bool.or_eq_true, Option.isSome_iff_exists] at h
      simp only [substrCI, Bool.or_eq_true, Option.isSome_iff_exists]
      rcases h with ⟨r, hr⟩ | h
      · exact Or.inl ⟨r, stripCI_of_stripCS hr⟩
      · exact Or.inr (ih h)

/-- If some catalog entry matches, `check_patterns` reports a match. -/
lemma check_patterns_fst_of_mem {text : String} {ps : List PatEntry} {pe : PatEntry}
    (hmem : pe ∈ ps) (hm : reSearch text.data pe.pat = true) :
    (check_patterns text ps).1 = true := by
  have h1 : pe ∈ ps.filter (fun q => reSearch text.data q.pat) :=
    List.mem_filter.mpr ⟨hmem, hm⟩
  have h2 : 0 < (ps.filter (fun q => reSearch text.data q.pat)).length :=
    List.length_pos.mpr (List.ne_nil_of_mem h1)
  simpa [check_patterns, List.length_map] using h2

/-- Two of the four success sub-signals force at least one of the three
substring sub-signals, each of which is itself a Success-tier pattern,
so the Success tier fires. -/
lemma success_fst_of_two {all : String} (h : 2 ≤ successCount all) :
    (check_patterns all success_patterns).1 = true := by
  by_cases h1 : substrCS ("PDU Session Establishment Accept".data) all.data = true
  · exact check_patterns_fst_of_mem
      (show (⟨"PDU Session Establishment Accept",
        .one "PDU Session Establishment Accept"⟩ : PatEntry) ∈ success_patterns by
        simp [success_patterns])
      (substrCI_of_substrCS h1)
  by_cases h2 : substrCS ("RRC_CONNECTED reached".data) all.data = true
  · exact check_patterns_fst_of_mem
      (show (⟨"RRC_CONNECTED reached",
        .one "RRC_CONNECTED reached"⟩ : PatEntry) ∈ success_patterns by
        simp [success_patterns])
      (substrCI_of_substrCS h2)
  by_cases h3 : substrCS ("CBRA procedure succeeded".data) all.data = true
  · exact check_patterns_fst_of_mem
      (show (⟨"CBRA procedure succeeded",
        .one "CBRA procedure succeeded"⟩ : PatEntry) ∈ success_patterns by
        simp [success_patterns])
      (substrCI_of_substrCS h3)
  exfalso
  simp only [Bool.not_eq_true] at h1 h2 h3
  unfold successCount at h
  rw [h1, h2, h3] at h
  by_cases h4 : (ipv4Search all.data).isSome = true
  · rw [h4] at h; simp at h
  · simp only [Bool.not_eq_true] at h4
    rw [h4] at h; simp at h

/-- The confidence produced by steps 6–8 of the cascade. -/
lemma metadataFallback_conf (f et im : String) (hs : Bool) (ev : List String) :
    (metadataFallback f et im hs ev).confidence = 0.50
    ∨ (metadataFallback f et im hs ev).confidence = 0.70
    ∨ (metadataFallback f et im hs ev).confidence = 0.30 := by
  unfold metadataFallback
  split_ifs
  · exact Or.inl rfl
  · exact Or.inr (Or.inl rfl)
  · exact Or.inr (Or.inr rfl)

/-- When a Success-tier pattern matched, step 5 never fires. -/
lemma connectHeuristic_hasSuccess (ue : String) (tail : Verdict) :
    connectHeuristic ue true tail = tail := by
  simp [connectHeuristic]

/-- When the UE stream misses one of the two trigger substrings, step 5
never fires. -/
lemma connectHeuristic_nofire {ue : String} {hs : Bool} {tail : Verdict}
    (h : (substrCS ("connect() to".data) ue.data
        && substrCS ("failed, errno".data) ue.data) = false) :
    connectHeuristic ue hs tail = tail := by
  simp [connectHeuristic, h]

/-- When the connect-failure count is at most 10, step 5 never fires. -/
lemma connectHeuristic_low {ue : String} {hs : Bool} {tail : Verdict}
    (h : countConnect ue.data ≤ 10) :
    connectHeuristic ue hs tail = tail := by
  unfold connectHeuristic
  split_ifs with h1 h2 h3
  · exact absurd h3 (by omega)
  all_goals rfl

/-- String-valued streams pass the corpus-building loop. -/
lemma pyLogs_ok {l : List (String × StreamVal)}
    (h : l.all (fun kv => isStrVal kv.2) = true) :
    ∃ r, pyLogs l = Except.ok r := by
  induction l with
  | nil => exact ⟨[], rfl⟩
  | cons kv rest ih =>
      simp only [List.all_cons, Bool.and_eq_true] at h
      obtain ⟨r, hr⟩ := ih h.2
      obtain ⟨k, v⟩ := kv
      cases v with
      | str s => exact ⟨(k, s) :: r, by simp [pyLogs, toStrStream, hr]⟩
      | strs _ => simp [isStrVal] at h

/-- A bundle whose corpus contains a Crash-tier pattern. -/
def w1 : LogData :=
  ⟨some [("du.stdout.log", "Segmentation fault (core dumped)")], none⟩

/-- Claim C1 — crash precedence invariant: when any Crash-tier pattern
matches the corpus (case-insensitively, anywhere), `classify_severity`
returns severity `ComponentCrash` (1) with confidence 0.95, regardless
of any co-occurring Success-, ConnectionFailure- or Abnormal-tier
match. -/
theorem crash_precedence (d : LogData)
    (h : (check_patterns (allLogs d) crash_patterns).1 = true) :
    (classify_severity d).severity = 1
    ∧ (classify_severity d).confidence = 0.95 := by
  unfold classify_severity
  rw [if_pos h]
  exact ⟨rfl, rfl⟩

/-- Witness for C1 at a concrete crash bundle. -/
theorem crash_precedence_witness :
    (classify_severity w1).severity = 1
    ∧ (classify_severity w1).confidence = 0.95 :=
  crash_precedence w1 (by decide)

/-- A bundle with two success sub-signals and no crash. -/
def w3 : LogData :=
  ⟨some [("ue.stdout.log",
     "Received PDU Session Establishment Accept\nUE got IPv4 10.0.0.5")], none⟩

/-- Claim C3 — success corroboration rule: no Crash-tier match and at
least 2 of the four success sub-signals give severity `NoError` (0)
with confidence 0.90, and the matched IPv4 literal is appended to the
evidence when present. -/
theorem success_corroboration (d : LogData)
    (hcr : (check_patterns (allLogs d) crash_patterns).1 = false)
    (hcnt : 2 ≤ successCount (allLogs d)) :
    (classify_severity d).severity = 0
    ∧ (classify_severity d).confidence = 0.90
    ∧ ∀ m, ipv4Search (allLogs d).data = some m →
        ("IPv4配置成功: " ++ String.mk m) ∈ (classify_severity d).evidence := by
  have hs := success_fst_of_two hcnt
  unfold classify_severity
  rw [if_neg (by simp [hcr]), if_pos (by simp [hs, hcnt])]
  refine ⟨rfl, rfl, ?_⟩
  intro m hm
  simp [successEvidence, hm]

/-- Witness for C3 at a concrete two-signal bundle. -/
theorem success_corroboration_witness :
    (classify_severity w3).severity = 0
    ∧ (classify_severity w3).confidence = 0.90
    ∧ ∀ m, ipv4Search (allLogs w3).data = some m →
        ("IPv4配置成功: " ++ String.mk m) ∈ (classify_severity w3).evidence :=
  success_corroboration w3 (by decide) (by decide)

/-- A bundle that matches exactly one Success-tier pattern, has no
Crash/ConnectionFailure/Abnormal match, and carries a non-empty
metadata `error_type`. -/
def cex4 : LogData :=
  ⟨some [("ue.stdout.log", "RA procedure succeeded")],
   some ⟨none, none, some "invalid_value", none⟩⟩

/-- Claim C4, counterexample: `cex4` satisfies every premise of the
claim — exactly one Success-tier pattern matches, fewer than 2
sub-signals, and no Crash-, ConnectionFailure- or Abnormal-tier pattern
matches — yet `classify_severity` returns severity 2 with confidence
0.50 (the metadata fallback pre-empts the residual-success rule), not
`NoError` with 0.70 as claimed. -/
theorem residual_success_counterexample :
    (check_patterns (allLogs cex4) crash_patterns).1 = false
    ∧ (check_patterns (allLogs cex4) success_patterns).2 = ["RA procedure succeeded"]
    ∧ successCount (allLogs cex4) < 2
    ∧ (check_patterns (allLogs cex4) ue_failure_patterns).1 = false
    ∧ (check_patterns (allLogs cex4) abnormal_patterns).1 = false
    ∧ (classify_severity cex4).severity = 2
    ∧ (classify_severity cex4).confidence = 0.50 :=
  ⟨by decide, by decide, by decide, by decide, by decide, by decide, rfl⟩

/-- Claim C4, amended: additionally requiring the metadata `error_type`
to be empty — which is what the counterexample forces — the residual
success fallback yields severity `NoError` (0) with confidence 0.70,
not 0.90. -/
theorem residual_success_amended (d : LogData)
    (hcr : (check_patterns (allLogs d) crash_patterns).1 = false)
    (hsu : (check_patterns (allLogs d) success_patterns).1 = true)
    (hcnt : successCount (allLogs d) < 2)
    (huf : (check_patterns (allLogs d) ue_failure_patterns).1 = false)
    (hab : (check_patterns (allLogs d) abnormal_patterns).1 = false)
    (het : errorTypeOf d = "") :
    (classify_severity d).severity = 0
    ∧ (classify_severity d).confidence = 0.70
    ∧ (classify_severity d).confidence ≠ 0.90 := by
  unfold classify_severity
  rw [if_neg (by simp [hcr]),
      if_neg (by
        intro hcond
        rw [Bool.and_eq_true] at hcond
        have := of_decide_eq_true hcond.2
        omega),
      if_neg (by simp [huf]), if_neg (by simp [hab])]
  rw [hsu, connectHeuristic_hasSuccess, het]
  have hmf : metadataFallback (filenameOf d) "" (impactOf d) true
      (check_patterns (allLogs d) success_patterns).2
      = ⟨0, "無錯誤：在 " ++ filenameOf d ++ " 中未發現明顯錯誤，有成功連線的跡象",
         (check_patterns (allLogs d) success_patterns).2, 0.70⟩ := by
    simp [metadataFallback]
  rw [hmf]
  exact ⟨rfl, rfl, by norm_num⟩

/-- A bundle with a single Success-tier signal and empty metadata. -/
def w4 : LogData := ⟨some [("ue.stdout.log", "CBRA procedure succeeded")], none⟩

/-- Witness for the amended C4 at a concrete single-signal bundle. -/
theorem residual_success_amended_witness :
    (classify_severity w4).severity = 0
    ∧ (classify_severity w4).confidence = 0.70
    ∧ (classify_severity w4).confidence ≠ 0.90 :=
  residual_success_amended w4 (by decide) (by decide) (by decide) (by decide)
    (by decide) (by decide)

/-- Claim C5 — strict repeated-connection threshold: when no earlier
tier fired and the UE stream contains both trigger substrings with no
Success-tier match, a connect-failure count of exactly 10 does not
trigger the heuristic (the confidence 0.80 branch), while a count of 11
yields severity `ConnectionFailure` (3) with confidence 0.80 and the
count recorded as evidence. -/
theorem repeated_connection_threshold (d : LogData)
    (hcr : (check_patterns (allLogs d) crash_patterns).1 = false)
    (hsu : (check_patterns (allLogs d) success_patterns).1 = false)
    (huf : (check_patterns (allLogs d) ue_failure_patterns).1 = false)
    (hab : (check_patterns (allLogs d) abnormal_patterns).1 = false)
    (h1 : substrCS ("connect() to".data) (ueLogOf d).data = true)
    (h2 : substrCS ("failed, errno".data) (ueLogOf d).data = true) :
    (countConnect (ueLogOf d).data = 10 →
      (classify_severity d).confidence ≠ 0.80)
    ∧ (countConnect (ueLogOf d).data = 11 →
      (classify_severity d).severity = 3
      ∧ (classify_severity d).confidence = 0.80
      ∧ (classify_severity d).evidence = ["11 connection attempts failed"]) := by
  unfold classify_severity
  rw [if_neg (by simp [hcr]), if_neg (by simp [hsu]), if_neg (by simp [huf]),
    if_neg (by simp [hab]), hsu]
  constructor
  · intro h10
    rw [connectHeuristic_low (by omega)]
    rcases metadataFallback_conf (filenameOf d) (errorTypeOf d) (impactOf d) false
        (check_patterns (allLogs d) success_patterns).2 with h | h | h <;>
      rw [h] <;> norm_num
  · intro h11
    unfold connectHeuristic
    rw [h1, h2, h11]
    norm_num
    decide

/-- The connect-failure line used by the C5 witness bundle. -/
def cline : String := "connect() to x failed, errno 111\n"

/-- A bundle whose UE stream shows eleven connect failures. -/
def w5 : LogData :=
  ⟨some [("ue.stdout.log", String.join (List.replicate 11 cline))], none⟩

set_option maxRecDepth 20000 in
/-- Witness for C5 at a concrete eleven-failure bundle. -/
theorem repeated_connection_threshold_witness :
    (countConnect (ueLogOf w5).data = 10 →
      (classify_severity w5).confidence ≠ 0.80)
    ∧ (countConnect (ueLogOf w5).data = 11 →
      (classify_severity w5).severity = 3
      ∧ (classify_severity w5).confidence = 0.80
      ∧ (classify_severity w5).evidence = ["11 connection attempts failed"]) :=
  repeated_connection_threshold w5 (by decide) (by decide) (by decide)
    (by decide) (by decide) (by decide)

/-- A bundle matching nothing at all, with empty metadata. -/
def cex2 : LogData := ⟨none, none⟩

/-- A bundle classified `NoError` through the 0.90 corroboration rule. -/
def noerr2 : LogData :=
  ⟨some [("ue.stdout.log",
     "Received PDU Session Establishment Accept\nRRC_CONNECTED reached")], none⟩

/-- Claim C2, counterexample: on a bundle with no matches and empty
metadata the cascade does return confidence 0.30 and the insufficient
information marker, but its severity is the integer 0 — exactly the
value the `NoError` verdicts return — so the claimed "value distinct
from NoError in the closed severity enum" is false for the code, whose
uncertain terminal case reuses severity 0. -/
theorem uncertain_terminal_counterexample :
    (classify_severity cex2).confidence = 0.30
    ∧ (classify_severity cex2).evidence = ["Insufficient log information"]
    ∧ (classify_severity noerr2).confidence = 0.90
    ∧ (classify_severity cex2).severity = (classify_severity noerr2).severity :=
  ⟨rfl, by decide, rfl, by decide⟩

/-- Claim C2, amended: when no tier fires, the repeated-connection
heuristic does not trigger, and the metadata `error_type` is empty,
`classify_severity` returns the uncertain terminal verdict — severity
integer 0 (the same value the code uses for `NoError`, distinguished
only by its confidence), confidence 0.30, and the fixed "Insufficient
log information" evidence marker. -/
theorem uncertain_terminal_amended (d : LogData)
    (hcr : (check_patterns (allLogs d) crash_patterns).1 = false)
    (hsu : (check_patterns (allLogs d) success_patterns).1 = false)
    (huf : (check_patterns (allLogs d) ue_failure_patterns).1 = false)
    (hab : (check_patterns (allLogs d) abnormal_patterns).1 = false)
    (hheur : (substrCS ("connect() to".data) (ueLogOf d).data
        && substrCS ("failed, errno".data) (ueLogOf d).data) = false
      ∨ countConnect (ueLogOf d).data ≤ 10)
    (het : errorTypeOf d = "") :
    classify_severity d
      = ⟨0, "無法判斷：log 資訊不足以明確分類，檔案 " ++ filenameOf d,
         ["Insufficient log information"], 0.30⟩ := by
  unfold classify_severity
  rw [if_neg (by simp [hcr]), if_neg (by simp [hsu]), if_neg (by simp [huf]),
    if_neg (by simp [hab]), hsu]
  have htail : connectHeuristic (ueLogOf d) false
      (metadataFallback (filenameOf d) (errorTypeOf d) (impactOf d) false
        (check_patterns (allLogs d) success_patterns).2)
      = metadataFallback (filenameOf d) (errorTypeOf d) (impactOf d) false
        (check_patterns (allLogs d) success_patterns).2 := by
    rcases hheur with h | h
    · exact connectHeuristic_nofire h
    · exact connectHeuristic_low h
  rw [htail, het]
  simp [metadataFallback]

/-- A bundle with an unremarkable corpus and no metadata. -/
def w2 : LogData := ⟨some [("du.stdout.log", "nothing to see")], none⟩

/-- Witness for the amended C2 at a concrete no-match bundle. -/
theorem uncertain_terminal_amended_witness :
    classify_severity w2
      = ⟨0, "無法判斷：log 資訊不足以明確分類，檔案 " ++ filenameOf w2,
         ["Insufficient log information"], 0.30⟩ :=
  uncertain_terminal_amended w2 (by decide) (by decide) (by decide) (by decide)
    (Or.inl (by decide)) (by decide)

/-- Claim C7, amended: in the crash branch, whenever the corpus contains
the literal tokens `Assertion` and `failed` and the extraction regex
matches with leftmost capture `e`, the verdict is `ComponentCrash` with
confidence 0.95 and `Assertion: e` is appended to the evidence.  (The
claim's universally quantified scenario is amended to the leftmost
match, which is what the counterexample forces.) -/
theorem assertion_extraction (d : LogData) (e : List Char)
    (hcr : (check_patterns (allLogs d) crash_patterns).1 = true)
    (hA : substrCS ("Assertion".data) (allLogs d).data = true)
    (hF : substrCS ("failed".data) (allLogs d).data = true)
    (hx : assertSearch (allLogs d).data = some e) :
    (classify_severity d).severity = 1
    ∧ (classify_severity d).confidence = 0.95
    ∧ ("Assertion: " ++ String.mk e) ∈ (classify_severity d).evidence := by
  unfold classify_severity
  rw [if_pos hcr]
  refine ⟨rfl, rfl, ?_⟩
  simp [crashEvidence, hA, hF, hx]

/-- The assertion-failure bundle of the spec's scenario. -/
def w7 : LogData :=
  ⟨some [("du.stdout.log",
     "Assertion (num_tx >= config.pdsch_AntennaPorts.XP) failed!")], none⟩

/-- Witness for the amended C7 at the spec's own scenario corpus. -/
theorem assertion_extraction_witness :
    (classify_severity w7).severity = 1
    ∧ (classify_severity w7).confidence = 0.95
    ∧ ("Assertion: " ++ String.mk ("num_tx >= config.pdsch_AntennaPorts.XP".data))
        ∈ (classify_severity w7).evidence :=
  assertion_extraction w7 ("num_tx >= config.pdsch_AntennaPorts.XP".data)
    (by decide) (by decide) (by decide) (by decide)

/-- A corpus containing the scenario's assertion text, preceded by an
earlier, different assertion failure. -/
def cex7 : LogData :=
  ⟨some [("du.stdout.log",
     "Assertion (x) failed Assertion (num_tx >= config.pdsch_AntennaPorts.XP) failed!")],
   none⟩

/-- Claim C7, counterexample: the corpus of `cex7` contains the literal
`Assertion (num_tx >= config.pdsch_AntennaPorts.XP) failed!`, the
verdict is `ComponentCrash` with confidence 0.95, yet no evidence entry
contains `num_tx >= config.pdsch_AntennaPorts.XP` — the leftmost regex
match extracts the earlier expression `x` instead, refuting the claim's
"for every corpus containing ..." evidence guarantee. -/
theorem assertion_extraction_counterexample :
    substrCS ("Assertion (num_tx >= config.pdsch_AntennaPorts.XP) failed!".data)
      (allLogs cex7).data = true
    ∧ (classify_severity cex7).severity = 1
    ∧ (classify_severity cex7).confidence = 0.95
    ∧ (classify_severity cex7).evidence.all
        (fun s => !(substrCS ("num_tx >= config.pdsch_AntennaPorts.XP".data) s.data))
        = true :=
  ⟨by decide, by decide, rfl, by decide⟩

/-- A bundle of the documented input shape whose UE stream is a list of
strings rather than a single string. -/
def cex6 : LogDataPy :=
  ⟨some [("ue.stdout.log", .strs ["connect() to x failed, errno 1", "line two"])],
   none⟩

/-- Claim C6, counterexample: the documented input shape allows
list-of-strings stream values ("lists are joined with newlines"), but
`classify_severity` concatenates each value with `+ "\n"` without any
list handling, so a list value raises `TypeError` inside the
corpus-building loop instead of yielding a verdict. -/
theorem classify_totality_counterexample :
    classifySeverityPy cex6
      = Except.error "can only concatenate list (not \"str\") to list" := rfl

/-- Claim C6, amended: `classify_severity` is total — returns some
verdict, never raising — for every bundle whose stream values are all
plain strings, with any subset of streams and metadata fields present;
list-valued streams, although part of the documented shape, are the
part the counterexample removes. -/
theorem classify_totality_amended (d : LogDataPy)
    (h : (d.logs.getD []).all (fun kv => isStrVal kv.2) = true) :
    ∃ v, classifySeverityPy d = Except.ok v := by
  cases hl : d.logs with
  | none =>
      exact ⟨classify_severity ⟨none, d.originalJsonData⟩,
        by simp [classifySeverityPy, hl]⟩
  | some l =>
      rw [hl] at h
      simp only [Option.getD] at h
      obtain ⟨r, hr⟩ := pyLogs_ok h
      exact ⟨classify_severity ⟨some r, d.originalJsonData⟩,
        by simp [classifySeverityPy, hl, hr]⟩

/-- A string-valued bundle of the documented shape. -/
def w6 : LogDataPy :=
  ⟨some [("du.stdout.log", .str "booting"), ("cu.stdout.log", .str "ready")],
   some ⟨some "du_case_003.json", none, none, none⟩⟩

/-- Witness for the amended C6 at a concrete string-valued bundle. -/
theorem classify_totality_amended_witness :
    ∃ v, classifySeverityPy w6 = Except.ok v :=
  classify_totality_amended w6 (by decide)

/-- Claim C8 — `ProcessingError` wrapper atomicity: when reading or
parsing the file fails, `analyze_file` returns (never raises) the
fixed record with the severity sentinel `-1` — outside the 0–3 enum —
and confidence 0.0; the record is a function of the path and the error
text alone, so the classification cascade is never entered. -/
theorem processing_error_wrapper (pathStr parentName fileName e : String) :
    analyze_file pathStr parentName fileName (Except.error e)
      = ⟨pathStr, -1, "Error processing file: " ++ e, [e], "Error", 0⟩ := rfl

/-- Claim C9 — fixed-constant confidence invariant: every verdict's
confidence is one of the fixed rule constants
{0.95, 0.90, 0.85, 0.80, 0.70, 0.50, 0.30}, hence always within
[0, 1]; it depends only on which cascade rule fired. -/
theorem confidence_constants (d : LogData) :
    (classify_severity d).confidence
      ∈ ([0.95, 0.90, 0.85, 0.80, 0.70, 0.50, 0.30] : List ℚ)
    ∧ 0 ≤ (classify_severity d).confidence
    ∧ (classify_severity d).confidence ≤ 1 := by
  have hb : ∀ q ∈ ([0.95, 0.90, 0.85, 0.80, 0.70, 0.50, 0.30] : List ℚ),
      0 ≤ q ∧ q ≤ 1 := by
    intro q hq
    simp only [List.mem_cons, List.not_mem_nil, or_false] at hq
    rcases hq with h | h | h | h | h | h | h <;> rw [h] <;> constructor <;> norm_num
  have hmem : (classify_severity d).confidence
      ∈ ([0.95, 0.90, 0.85, 0.80, 0.70, 0.50, 0.30] : List ℚ) := by
    unfold classify_severity
    split_ifs
    · simp
    · simp
    · simp
    · simp
    · unfold connectHeuristic
      split_ifs
      · simp
      all_goals
        rcases metadataFallback_conf (filenameOf d) (errorTypeOf d) (impactOf d)
            (check_patterns (allLogs d) success_patterns).1
            (check_patterns (allLogs d) success_patterns).2 with h | h | h <;>
          rw [h] <;> simp
  exact ⟨hmem, (hb _ hmem).1, (hb _ hmem).2⟩

/-- Claim C10 — UE-stream key specificity: the repeated-connection
heuristic reads only the stream under the exact key `ue.stdout.log`;
when that stream lacks either trigger substring (in particular when the
connect-failure text lives only under other keys, or the key is
absent), the heuristic never fires — confidence 0.80 is unreachable —
no matter what the combined corpus contains. -/
theorem ue_stream_key_specificity (d : LogData)
    (h : ¬(substrCS ("connect() to".data) (ueLogOf d).data = true
        ∧ substrCS ("failed, errno".data) (ueLogOf d).data = true)) :
    (classify_severity d).confidence ≠ 0.80 := by
  have hb : (substrCS ("connect() to".data) (ueLogOf d).data
      && substrCS ("failed, errno".data) (ueLogOf d).data) = false := by
    cases hA : substrCS ("connect() to".data) (ueLogOf d).data <;>
      cases hB : substrCS ("failed, errno".data) (ueLogOf d).data <;>
      simp_all
  unfold classify_severity
  split_ifs
  · norm_num
  · norm_num
  · norm_num
  · norm_num
  · rw [connectHeuristic_nofire hb]
    rcases metadataFallback_conf (filenameOf d) (errorTypeOf d) (impactOf d)
        (check_patterns (allLogs d) success_patterns).1
        (check_patterns (allLogs d) success_patterns).2 with h | h | h <;>
      rw [h] <;> norm_num

/-- A bundle whose connect-failure text lives only in the DU stream. -/
def w10 : LogData :=
  ⟨some [("du.stdout.log", String.join (List.replicate 20 cline))], none⟩

set_option maxRecDepth 20000 in
/-- Witness for C10 at a bundle with twenty connect failures under the
key `du.stdout.log` and no `ue.stdout.log` stream at all. -/
theorem ue_stream_key_specificity_witness :
    (classify_severity w10).confidence ≠ 0.80 :=
  ue_stream_key_specificity w10 (by decide)

end TestingRowData
